import Mathlib

/-!
Shallow embedding of the two logic units of this repository:
`src/redirect.rs` (the `Redirect` service) and
`src/http/header/content_length.rs` (the strict integer header codec).
Rust strings are modelled as lists of characters.
-/

/-- Rust strings are modelled as lists of characters. -/
abbrev Str := List Char

/-- View a Lean string literal as the model type. -/
def strOf (s : String) : Str := s.data

/-- Rust's `str::strip_suffix`: `some` of the remaining front part when the
string ends with `suff`, `none` otherwise. -/
def stripSuffixRust (s suff : Str) : Option Str :=
  if suff <:+ s then some (s.take (s.length - suff.length)) else none

/-- `http::StatusCode` (host crate): a status code integer; the
`StatusCode::from_u16` constructor only ever produces values in `100..=999`,
so the type carries that invariant. -/
structure StatusCode where
  code : Nat
  valid : 100 ≤ code ∧ code ≤ 999

/-- `StatusCode::PERMANENT_REDIRECT` (308). -/
def StatusCode.PERMANENT_REDIRECT : StatusCode := ⟨308, by decide⟩

/-- `StatusCode::TEMPORARY_REDIRECT` (307). -/
def StatusCode.TEMPORARY_REDIRECT : StatusCode := ⟨307, by decide⟩

/-- `enum RedirectType` from `src/redirect.rs`. -/
inductive RedirectType where
  | Absolute («to» : Str)
  | Relative («to» : Str)
deriving DecidableEq

/-- `struct Redirect` from `src/redirect.rs`. -/
structure Redirect where
  «from» : Str
  «to» : RedirectType
  status_code : StatusCode

/-- `Redirect::from`: defaults to `Absolute("/")` and `PERMANENT_REDIRECT`. -/
def Redirect.from' (f : Str) : Redirect :=
  { «from» := f
    «to» := RedirectType.Absolute (strOf "/")
    status_code := StatusCode.PERMANENT_REDIRECT }

/-- `Redirect::to_absolute`. -/
def Redirect.to_absolute (r : Redirect) («to» : Str) : Redirect :=
  { r with «to» := RedirectType.Absolute «to» }

/-- `Redirect::to_relative`. -/
def Redirect.to_relative (r : Redirect) («to» : Str) : Redirect :=
  { r with «to» := RedirectType.Relative «to» }

/-- `Redirect::using_status_code`. -/
def Redirect.using_status_code (r : Redirect) (status : StatusCode) : Redirect :=
  { r with status_code := status }

/-- `Redirect::temporary`: delegates to `using_status_code(TEMPORARY_REDIRECT)`. -/
def Redirect.temporary (r : Redirect) : Redirect :=
  r.using_status_code StatusCode.TEMPORARY_REDIRECT

/-- `req.uri().to_string()` for an origin-form request: the path itself, or
the path followed by `?` and the query string when one is present. -/
def requestUri (path : Str) (query : Option Str) : Str :=
  match query with
  | none => path
  | some q => path ++ '?' :: q

/-- One evaluation of the service closure built in `Redirect::register` on a
request whose full URI string is `uri`: the `Absolute` arm returns the target
as-is, the `Relative` arm strips the registered source path from the end of
the URI string and appends the target. The result is the status code and the
`Location` header value; `none` models the panic of the `unwrap` when
`strip_suffix` returns `None`. -/
def evalRedirect (r : Redirect) (uri : Str) : Option (StatusCode × Str) :=
  match r.«to» with
  | RedirectType.Absolute «to» => some (r.status_code, «to»)
  | RedirectType.Relative «to» =>
      match stripSuffixRust uri r.«from» with
      | some stripped => some (r.status_code, stripped ++ «to»)
      | none => none

/-- The closure in `Redirect::register` captures the rule's fields by move
and never mutates them (no `mut` binding), so a call is explicit state
passing that returns the output together with the unchanged captured state. -/
def evalStep (r : Redirect) (uri : Str) : Option (StatusCode × Str) × Redirect :=
  (evalRedirect r uri, r)

/-- Rules reachable from `Redirect::from` by builder configuration calls:
every constructed and configured rule. -/
inductive Built : Redirect → Prop where
  | base (f : Str) : Built (Redirect.from' f)
  | abs (r : Redirect) (x : Str) : Built r → Built (r.to_absolute x)
  | rel (r : Redirect) (x : Str) : Built r → Built (r.to_relative x)
  | temp (r : Redirect) : Built r → Built r.temporary
  | status (r : Redirect) (c : StatusCode) : Built r → Built (r.using_status_code c)

/-- Modelled from the spec: the digit test of the strict `1*DIGIT` grammar of
the integer header codec (the `common_header!` macro body is not among the
sources; only its invocation and tests are). -/
def isDigitChar (c : Char) : Bool := '0' ≤ c && c ≤ '9'

/-- Modelled from the spec: the parse loop of the integer header codec:
consume decimal digits left to right accumulating the base-10 value; any
non-digit character aborts the parse. -/
def parseDigitsAux (acc : Nat) : Str → Option Nat
  | [] => some acc
  | c :: cs =>
      if isDigitChar c then parseDigitsAux (acc * 10 + (c.toNat - 48)) cs
      else none

/-- The largest value of the supported unsigned width (64-bit `usize`):
`2 ^ 64 - 1`. -/
def U64_MAX : Nat := 18446744073709551615

/-- Modelled from the spec: parse one raw header value as a strict base-10
unsigned integer: reject the empty string, any non-digit character and any
value beyond the supported 64-bit width. -/
def parseDecimalU64 (s : Str) : Option Nat :=
  match s with
  | [] => none
  | _ :: _ =>
      match parseDigitsAux 0 s with
      | some n => if n ≤ U64_MAX then some n else none
      | none => none

/-- Modelled from the spec: the `common_header!`-generated parse step for
`ContentLength`: exactly one raw value, parsed with the strict grammar; a
sequence of zero or of more than one raw values gives `None`. -/
def ContentLength.from_raw (vals : List Str) : Option Nat :=
  match vals with
  | [v] => parseDecimalU64 v
  | _ => none

/-- The decimal value of a digit string, reading `1*DIGIT` in base 10. -/
def digitsToNat (s : Str) : Nat :=
  s.foldl (fun a c => a * 10 + (c.toNat - 48)) 0

theorem stripSuffixRust_append (p s : Str) : stripSuffixRust (p ++ s) s = some p := by
  unfold stripSuffixRust
  rw [if_pos (List.suffix_append p s)]
  have hlen : (p ++ s).length - s.length = p.length := by
    simp [List.length_append]
  rw [hlen, List.take_left]

theorem parseDigitsAux_spec (s : Str) : ∀ acc : Nat,
    parseDigitsAux acc s
      = if s.all isDigitChar
        then some (s.foldl (fun a c => a * 10 + (c.toNat - 48)) acc)
        else none := by
  induction s with
  | nil => intro acc; rfl
  | cons c cs ih =>
      intro acc
      cases hc : isDigitChar c with
      | true => simp [parseDigitsAux, hc, ih]
      | false => simp [parseDigitsAux, hc]

/-- Claim C1: for every rule whose target is `Relative t` with source path
`s` (the rule's `from` field), evaluating the rule on a request path of the
form `pre ++ s` (the caller's match precondition) yields a `Location` value
equal to `pre ++ t`. -/
theorem claim_C1 (r : Redirect) (t pre : Str) (h : r.«to» = RedirectType.Relative t) :
    evalRedirect r (pre ++ r.«from») = some (r.status_code, pre ++ t) := by
  unfold evalRedirect
  rw [h, stripSuffixRust_append]

theorem claim_C1_witness :
    evalRedirect ((Redirect.from' (strOf "/one")).to_relative (strOf "/two"))
        (strOf "/scoped" ++ ((Redirect.from' (strOf "/one")).to_relative (strOf "/two")).«from»)
      = some (((Redirect.from' (strOf "/one")).to_relative (strOf "/two")).status_code,
          strOf "/scoped" ++ strOf "/two") :=
  claim_C1 _ (strOf "/two") (strOf "/scoped") rfl

/-- Claim C2: the code contradicts the claim (and its own comment `if service
matched then suffix can always be stripped`): the rule
`from("/one").to_relative("/two")` and a request whose path is exactly `/one`
(so the caller's match guarantee on the path holds, first conjunct) but which
carries the query string `a=1`. The closure strips the source path from the
full URI string `/one?a=1`, the strip fails and the `unwrap` panics (second
conjunct, the `none` outcome). -/
theorem claim_C2_panic :
    ((Redirect.from' (strOf "/one")).to_relative (strOf "/two")).«from» <:+ strOf "/one"
    ∧ evalRedirect ((Redirect.from' (strOf "/one")).to_relative (strOf "/two"))
        (requestUri (strOf "/one") (some (strOf "a=1"))) = none := by
  refine ⟨⟨[], rfl⟩, ?_⟩
  rfl

/-- Claim C3: for every rule whose target is `Absolute t`, evaluating the
rule on any request URI yields `Location` exactly `t`, independent of the
request. -/
theorem claim_C3 (r : Redirect) (t uri : Str) (h : r.«to» = RedirectType.Absolute t) :
    evalRedirect r uri = some (r.status_code, t) := by
  unfold evalRedirect
  rw [h]

theorem claim_C3_witness :
    evalRedirect ((Redirect.from' (strOf "/external")).to_absolute (strOf "https://duck.com"))
        (strOf "/external")
      = some (((Redirect.from' (strOf "/external")).to_absolute (strOf "https://duck.com")).status_code,
          strOf "https://duck.com") :=
  claim_C3 _ (strOf "https://duck.com") (strOf "/external") rfl

/-- Claim C4: single-element behaviour of the integer header codec. A raw
value parses to `some` exactly of its decimal value when it is a non-empty
string of ASCII decimal digits whose value fits 64 bits; the empty string,
any non-digit character (comma, underscore, sign, whitespace, decimal point,
any leading or trailing garbage) and numeric overflow all give `none`, and
the largest 64-bit value `18446744073709551615` is accepted. -/
theorem claim_C4 :
    (∀ s : Str, ContentLength.from_raw [s]
      = if s ≠ [] ∧ s.all isDigitChar = true ∧ digitsToNat s ≤ U64_MAX
        then some (digitsToNat s) else none)
    ∧ ContentLength.from_raw [strOf "18446744073709551615"] = some 18446744073709551615
    ∧ ContentLength.from_raw [strOf ""] = none
    ∧ ContentLength.from_raw [strOf "123,567"] = none
    ∧ ContentLength.from_raw [strOf "123_567"] = none
    ∧ ContentLength.from_raw [strOf "+123"] = none
    ∧ ContentLength.from_raw [strOf "-123"] = none
    ∧ ContentLength.from_raw [strOf " 123"] = none
    ∧ ContentLength.from_raw [strOf "123 "] = none
    ∧ ContentLength.from_raw [strOf "1.5"] = none
    ∧ ContentLength.from_raw [strOf "18446744073709551616"] = none := by
  refine ⟨?_, by decide, by decide, by decide, by decide, by decide, by decide,
    by decide, by decide, by decide, by decide⟩
  intro s
  match s with
  | [] => rfl
  | c :: cs =>
      show parseDecimalU64 (c :: cs) = _
      unfold parseDecimalU64
      rw [parseDigitsAux_spec]
      by_cases hall : (c :: cs).all isDigitChar = true
      · rw [if_pos hall]
        by_cases hb : digitsToNat (c :: cs) ≤ U64_MAX
        · rw [if_pos ⟨List.cons_ne_nil c cs, hall, hb⟩]
          simp [digitsToNat] at hb
          simp [digitsToNat, hb]
        · rw [if_neg (fun h => hb h.2.2)]
          simp [digitsToNat] at hb
          simp [hb]
      · rw [if_neg (by simpa using hall), if_neg (fun h => hall h.2.1)]

/-- Claim C5: the codec rejects any number of raw values other than exactly
one: the empty sequence gives `none` and a two-element sequence such as
`["1", "2"]` gives `none` (duplicates are rejected, not merged and not
first-wins). -/
theorem claim_C5 :
    (∀ vals : List Str, vals.length ≠ 1 → ContentLength.from_raw vals = none)
    ∧ ContentLength.from_raw [] = none
    ∧ ContentLength.from_raw [strOf "1", strOf "2"] = none := by
  refine ⟨?_, rfl, rfl⟩
  intro vals h
  match vals with
  | [] => rfl
  | [v] => exact absurd rfl h
  | _ :: _ :: _ => rfl

theorem claim_C5_witness : ContentLength.from_raw [strOf "1", strOf "2"] = none :=
  claim_C5.1 [strOf "1", strOf "2"] (by decide)

/-- Claim C6: `from(source_path)` builds a rule whose target is
`Absolute("/")` with status code 308; `temporary()` sets the status to 307;
`using_status_code(c)` sets the status to exactly `c`; and a rule left at its
default, evaluated on any request URI, responds with status 308. -/
theorem claim_C6 :
    (∀ f : Str, (Redirect.from' f).«to» = RedirectType.Absolute (strOf "/")
      ∧ (Redirect.from' f).status_code.code = 308)
    ∧ (∀ r : Redirect, r.temporary.status_code.code = 307)
    ∧ (∀ (r : Redirect) (c : StatusCode), (r.using_status_code c).status_code = c)
    ∧ (∀ (f uri : Str), evalRedirect (Redirect.from' f) uri
        = some (StatusCode.PERMANENT_REDIRECT, strOf "/")) :=
  ⟨fun _ => ⟨rfl, rfl⟩, fun _ => rfl, fun _ _ => rfl, fun _ _ => rfl⟩

/-- Claim C7: each builder configuration method is a total function of the
rule and its argument (it is defined for every input and has no failure
outcome) and is idempotent: applying it twice with the same argument yields
the same rule as applying it once. -/
theorem claim_C7 :
    (∀ (r : Redirect) (x : Str), (r.to_absolute x).to_absolute x = r.to_absolute x)
    ∧ (∀ (r : Redirect) (x : Str), (r.to_relative x).to_relative x = r.to_relative x)
    ∧ (∀ r : Redirect, r.temporary.temporary = r.temporary)
    ∧ (∀ (r : Redirect) (c : StatusCode),
        (r.using_status_code c).using_status_code c = r.using_status_code c) :=
  ⟨fun _ _ => rfl, fun _ _ => rfl, fun _ => rfl, fun _ _ => rfl⟩

/-- Claim C8: every rule reachable from `from` by builder calls has a status
code that is a valid HTTP status integer within 1 and 999, and the component
places no further restriction: `using_status_code` accepts any valid status
code (redirect-class or not) and stores exactly it. -/
theorem claim_C8 (r : Redirect) (h : Built r) :
    (1 ≤ r.status_code.code ∧ r.status_code.code ≤ 999)
    ∧ ∀ c : StatusCode, (r.using_status_code c).status_code = c :=
  ⟨⟨Nat.le_trans (by decide) r.status_code.valid.1, r.status_code.valid.2⟩,
    fun _ => rfl⟩

theorem claim_C8_witness :
    (1 ≤ ((Redirect.from' (strOf "/a")).using_status_code ⟨200, by decide⟩).status_code.code
      ∧ ((Redirect.from' (strOf "/a")).using_status_code ⟨200, by decide⟩).status_code.code ≤ 999)
    ∧ ∀ c : StatusCode,
        (((Redirect.from' (strOf "/a")).using_status_code ⟨200, by decide⟩).using_status_code c).status_code = c :=
  claim_C8 _ (Built.status _ _ (Built.base _))

/-- Claim C9: evaluation is deterministic and stateless: a call of the
service closure leaves the captured rule unchanged, and a second call on the
same request URI returns the same output (same status code and `Location`). -/
theorem claim_C9 (r : Redirect) (uri : Str) :
    (evalStep r uri).2 = r
    ∧ (evalStep (evalStep r uri).2 uri).1 = (evalStep r uri).1 :=
  ⟨rfl, rfl⟩

/-- Claim C10 counterexample: the claim's final clause (`a request whose path
ends with source_path but whose URI carries a query string does not strip
successfully`) is false: for the rule `from("/one").to_relative("/t")` the
path `/one` ends with the source path (first conjunct) and the request
carries the query string `r=/one`, yet the full URI `/one?r=/one` still ends
with `/one`, so the strip succeeds and yields the mangled Location
`/one?r=/t` (second conjunct). -/
theorem claim_C10_counterexample :
    ((Redirect.from' (strOf "/one")).to_relative (strOf "/t")).«from» <:+ strOf "/one"
    ∧ evalRedirect ((Redirect.from' (strOf "/one")).to_relative (strOf "/t"))
        (requestUri (strOf "/one") (some (strOf "r=/one")))
      = some (((Redirect.from' (strOf "/one")).to_relative (strOf "/t")).status_code,
          strOf "/one?r=" ++ strOf "/t") :=
  ⟨⟨[], rfl⟩, rfl⟩

/-- Claim C10 as amended: relative-target evaluation strips `source_path`
from the full request URI string (the path plus any query string), not from
the path component alone: the strip succeeds exactly when the full URI string
ends with `source_path`; consequently a request whose path ends with
`source_path` but whose URI carries a query string strips successfully only
when the full URI string, query included, still ends with `source_path` — in
particular, for the rule `from("/one").to_relative("/t")` and the request
with path `/one` and query string `q`, the strip fails and evaluation
panics. -/
theorem claim_C10 (r : Redirect) (t : Str) (h : r.«to» = RedirectType.Relative t) :
    (∀ (path : Str) (query : Option Str),
      (evalRedirect r (requestUri path query)).isSome
        ↔ r.«from» <:+ requestUri path query)
    ∧ evalRedirect ((Redirect.from' (strOf "/one")).to_relative (strOf "/t"))
        (requestUri (strOf "/one") (some (strOf "q"))) = none := by
  refine ⟨fun path query => ?_, rfl⟩
  unfold evalRedirect
  rw [h]
  unfold stripSuffixRust
  by_cases hc : r.«from» <:+ requestUri path query
  · simp [hc]
  · simp [hc]

theorem claim_C10_witness :
    ((evalRedirect ((Redirect.from' (strOf "/a")).to_relative (strOf "/b"))
        (requestUri (strOf "/sc/a") none)).isSome
      ↔ ((Redirect.from' (strOf "/a")).to_relative (strOf "/b")).«from»
          <:+ requestUri (strOf "/sc/a") none)
    ∧ evalRedirect ((Redirect.from' (strOf "/one")).to_relative (strOf "/t"))
        (requestUri (strOf "/one") (some (strOf "q"))) = none :=
  ⟨(claim_C10 _ (strOf "/b") rfl).1 (strOf "/sc/a") none,
    (claim_C10 ((Redirect.from' (strOf "/a")).to_relative (strOf "/b")) (strOf "/b") rfl).2⟩
